import Mathlib

/-!
Verification of the fzf-autocd directory-inheritance handoff subsystem.

The fzf-side integration code (main.go: `main` tail, `handleAutoCD`,
`isDirectory`, `exit`; src/winpty.go) is embedded directly from the source.
The autocd-go library (PathResolver, ShellDetector, ScriptGenerator,
PlatformExecutor, HandoffController) is not part of the source
tree of this repository, so its behaviour is modelled from the specification; those
definitions carry a doc comment saying so.

Filesystem paths are modelled as lists of components of an absolute path
(the empty list is the filesystem root), so the Go `filepath.Dir` on an
absolute path becomes `List.dropLast` (with the root as its own parent,
matching `filepath.Dir "/" = "/"`).
-/

namespace FzfAutocd

/-- Kind of a filesystem entry, as distinguished by `os.Stat().IsDir()`. -/
inductive FSEntry
  | dir
  | file
deriving DecidableEq, Repr

/-- An absolute path, as the list of its components; `[]` is the root. -/
abbrev Path := List String

/-- Lookup of a path in an association list of filesystem entries. -/
def statList : List (Path × FSEntry) → Path → Option FSEntry
  | [], _ => none
  | (q, e) :: rest, p => if q = p then some e else statList rest p

/-- A model filesystem: the set of existing entries with their kinds. -/
structure FS where
  entries : List (Path × FSEntry)

/-- Model of `os.Stat`: `none` when the path does not exist. -/
def FS.stat (fs : FS) (p : Path) : Option FSEntry :=
  statList fs.entries p

/-- Well-formedness of a model filesystem, as on a real one: the root
exists and is a directory, and the parent of every existing entry is an
existing directory. Stated as a Bool so concrete instances evaluate. -/
def FS.wfb (fs : FS) : Bool :=
  decide (fs.stat [] = some FSEntry.dir) &&
    fs.entries.all fun pe =>
      decide (pe.1 = []) || decide (fs.stat pe.1.dropLast = some FSEntry.dir)

/-- Model of `isDirectory` from main.go: `os.Stat` succeeds and reports a
directory. -/
def isDirectory (fs : FS) (path : Path) : Bool :=
  match fs.stat path with
  | some FSEntry.dir => true
  | _ => false

/-- Model of the Go `filepath.Dir` on absolute paths in component form. -/
def filepathDir (p : Path) : Path := p.dropLast

/-- Target-directory computation of `handleAutoCD` (main.go): the selected
item itself when it is a directory, otherwise its `filepath.Dir`. -/
def handleAutoCDTarget (fs : FS) (selectedItem : Path) : Path :=
  if isDirectory fs selectedItem then selectedItem else filepathDir selectedItem

/-- The autocd-go error taxonomy from the data model of the spec. -/
inductive HandoffError
  | invalidTarget
  | shellDetectionFailed
  | scriptGenerationFailed
  | permissionDenied
  | execFailed (osError : String)
  | unsupportedPlatform
deriving DecidableEq, Repr

/-- Modelled from the spec: the path resolution stage of the autocd-go
library (code not under the source tree of this repository). A missing path
fails with InvalidTarget; a directory resolves to itself; a file or other
non-directory entry resolves to its parent. -/
def autocdResolve (fs : FS) (rawPath : Path) : Except HandoffError Path :=
  match fs.stat rawPath with
  | none => .error .invalidTarget
  | some .dir => .ok rawPath
  | some .file => .ok (filepathDir rawPath)

/-- The resolution actually performed by the integration: `handleAutoCD`
first replaces a non-directory selection by its `filepath.Dir`, then hands
the result to the library resolver. -/
def composedResolve (fs : FS) (selectedItem : Path) : Except HandoffError Path :=
  autocdResolve fs (handleAutoCDTarget fs selectedItem)

/-! ## fzf-side exit handling (main.go, winpty.go) -/

/-- Exit code `ExitOk` from the fzf constants file. -/
def ExitOk : Nat := 0

/-- Exit code `ExitNoMatch` from the fzf constants file. -/
def ExitNoMatch : Nat := 1

/-- Exit code `ExitError` from the fzf constants file. -/
def ExitError : Nat := 2

/-- The fields of the fzf `Options` struct that the embedded code consults. -/
structure Options where
  autoCD : Bool
deriving DecidableEq, Repr

/-- Observable result of process termination through `exit`. -/
structure ProcExit where
  exitCode : Nat
  stderrLines : List String
deriving DecidableEq, Repr

/-- Model of `exit` from main.go: prints the error to stderr exactly when
the code is `ExitError` and the error is non-nil, then exits with the code. -/
def exitFn (code : Nat) (err : Option String) : ProcExit :=
  if code == ExitError && err.isSome then ⟨code, err.toList⟩ else ⟨code, []⟩

/-- What the tail of `main` does after `fzf.Run` returns: either invoke the
handoff on the selected item, or terminate through `exit`. (When the
handoff is invoked it never returns: on success the process is replaced,
on failure the fallback calls `os.Exit(0)`.) -/
inductive MainOutcome
  | handoff (selectedItem : String)
  | exit (p : ProcExit)
deriving DecidableEq, Repr

/-- Model of the tail of `main` (main.go): the autocd handoff runs exactly
when the run exit code is `ExitOk`, the autocd option is set and the
selected item is non-empty; otherwise `exit(code, err)` runs. -/
def mainAfterRun (code : Nat) (opts : Options) (selectedItem : String)
    (err : Option String) : MainOutcome :=
  if code == ExitOk && opts.autoCD && selectedItem != "" then
    .handoff selectedItem
  else
    .exit (exitFn code err)

/-! ## The autocd-go handoff pipeline, modelled from the spec -/

/-- Rendering of an absolute path in component form back to a string. -/
def pathToString (p : Path) : String :=
  "/" ++ String.intercalate "/" p

/-- How the platform can hand off: in-place process replacement
(`syscall.Exec`), spawn-wait-propagate-exit, or neither. -/
inductive Platform
  | execStyle
  | spawnStyle
  | unsupported
deriving DecidableEq, Repr

/-- Modelled from the spec: the script artifact written by the
ScriptGenerator of the autocd-go library (code not under the
source tree of this repository). -/
structure ScriptArtifact where
  filePath : String
  dir : Path
  shellPath : String
deriving DecidableEq, Repr

/-- The ambient state one handoff invocation runs against: the
filesystem, the outcome of each fallible stage, the platform handoff
style, the eventual exit code of the shell child, and the debug toggle. -/
structure Env where
  fs : FS
  dirAccessible : Path → Bool
  shellDetectable : Bool
  shellPath : String
  tempWritable : Bool
  platform : Platform
  execSucceeds : Bool
  childExitCode : Nat
  debug : Bool

/-- Observable effects of one handoff invocation: diagnostic lines on the
error stream, lines on standard output, files left in the temp directory
afterwards, whether an artifact was ever written, whether the generated
script ran, and how often the fallback procedure was invoked. -/
structure Trace where
  debugLines : List String
  stdoutLines : List String
  tempFiles : List String
  artifactWritten : Bool
  scriptExecuted : Bool
  fallbackCalls : Nat
deriving DecidableEq, Repr

/-- A single diagnostic line, emitted only when the debug toggle is set. -/
def debugLine (debug : Bool) (s : String) : List String :=
  if debug then [s] else []

/-- Modelled from the spec: ScriptGenerator.generate of the autocd-go
library (code not under the source tree of this repository). On a write
failure it fails with ScriptGenerationFailed and nothing persists. -/
def generate (dir : Path) (shellPath : String) (tempWritable : Bool) :
    Except HandoffError ScriptArtifact :=
  if tempWritable then .ok ⟨"autocd-script", dir, shellPath⟩
  else .error .scriptGenerationFailed

/-- Outcome of the executor and of the whole pipeline. `replaced` (the
process image was swapped in place) and `exited` (the host terminated
with the given code) both encode that control never returns to the
calling code; only `failed` returns. -/
inductive PipelineResult
  | replaced
  | exited (code : Nat)
  | failed (e : HandoffError)
deriving DecidableEq, Repr

/-- Modelled from the spec: PlatformExecutor.execute of the autocd-go
library (code not under the source tree of this repository). With a native
replacement primitive it replaces the process or fails with ExecFailed;
without one it spawns the script interpreter, waits, and exits with the
exact exit code of the child; on an unsupported platform it fails with
UnsupportedPlatform. It assumes a quiesced process. -/
def execute (env : Env) (_art : ScriptArtifact) : PipelineResult :=
  match env.platform with
  | .execStyle =>
      if env.execSucceeds then .replaced
      else .failed (.execFailed "exec failed")
  | .spawnStyle =>
      if env.execSucceeds then .exited env.childExitCode
      else .failed (.execFailed "spawn failed")
  | .unsupported => .failed .unsupportedPlatform

/-- Modelled from the spec: HandoffController.invoke of the autocd-go
library (code not under the source tree of this repository). Runs resolution,
security validation, shell detection, script generation and execution in
order; each stage emits one diagnostic line when debug is on; the script,
when it runs, prints its single confirmation line before handing the
terminal to the shell; on ExecFailed and UnsupportedPlatform the
controller deletes the written artifact before returning, and in the
spawn and replacement success modes the artifact removes itself, so no
artifact outlives the call. -/
def invoke (env : Env) (rawPath : Path) : PipelineResult × Trace :=
  match autocdResolve env.fs rawPath with
  | .error e => (.failed e,
      ⟨debugLine env.debug "autocd: resolve failed", [], [], false, false, 0⟩)
  | .ok dir =>
    let d1 := debugLine env.debug ("autocd: resolved " ++ pathToString dir)
    if !env.dirAccessible dir then
      (.failed .permissionDenied, ⟨d1, [], [], false, false, 0⟩)
    else if !env.shellDetectable then
      (.failed .shellDetectionFailed, ⟨d1, [], [], false, false, 0⟩)
    else
      let d2 := d1 ++ debugLine env.debug ("autocd: shell " ++ env.shellPath)
      match generate dir env.shellPath env.tempWritable with
      | .error e => (.failed e, ⟨d2, [], [], false, false, 0⟩)
      | .ok art =>
        let d3 := d2 ++ debugLine env.debug ("autocd: script " ++ art.filePath)
        match execute env art with
        | .replaced => (.replaced,
            ⟨d3, ["Directory changed to: " ++ pathToString dir], [], true, true, 0⟩)
        | .exited c => (.exited c,
            ⟨d3, ["Directory changed to: " ++ pathToString dir], [], true, true, 0⟩)
        | .failed e => (.failed e, ⟨d3, [], [], true, false, 0⟩)

/-- Modelled from the spec: ExitWithDirectoryOrFallback of the autocd-go
library (code not under the source tree of this repository). Runs the same
pipeline; when any stage fails it invokes the fallback once and then
terminates the process with the neutral exit code 0. -/
def invokeOrFallback (env : Env) (rawPath : Path) : PipelineResult × Trace :=
  match invoke env rawPath with
  | (.failed _, tr) => (.exited 0, { tr with fallbackCalls := tr.fallbackCalls + 1 })
  | r => r

/-- Model of `needWinpty` from src/winpty.go (the non-Windows build). -/
def needWinpty (_ : Options) : Bool := false

/-- Model of `runWinpty` from src/winpty.go (the non-Windows build); the
Go `error` result is an `Option String`. -/
def runWinpty (_ : List String) (_ : Options) : Nat × String × Option String :=
  (ExitError, "", some "Not supported")

/-! ## Concrete fixtures -/

/-- A small well-formed filesystem: the root, one directory, one file. -/
def fsA : FS :=
  ⟨[([], FSEntry.dir), (["home"], FSEntry.dir), (["home", "notes.md"], FSEntry.file)]⟩

/-- An environment in which every pipeline stage succeeds, on a platform
with in-place replacement, with the debug toggle unset. -/
def envOk : Env :=
  ⟨fsA, fun _ => true, true, "/bin/zsh", true, Platform.execStyle, true, 0, false⟩

/-- The all-success environment with a failing replacement primitive. -/
def envExecFail : Env := { envOk with execSucceeds := false }

/-- A script artifact for exercising the executor directly. -/
def artA : ScriptArtifact := ⟨"autocd-script", ["home"], "/bin/zsh"⟩

/-- A filesystem in which the directory `/a` exists but `/a/b` does not. -/
def fsC3 : FS := ⟨[([], FSEntry.dir), (["a"], FSEntry.dir)]⟩

/-! ## Helper lemmas -/

theorem statList_mem {l : List (Path × FSEntry)} {p : Path} {e : FSEntry}
    (h : statList l p = some e) : (p, e) ∈ l := by
  induction l with
  | nil => exact absurd h (by simp [statList])
  | cons pe rest ih =>
      obtain ⟨q, e2⟩ := pe
      simp only [statList] at h
      split at h
      · next hq =>
          subst hq
          injection h with h2
          subst h2
          exact List.mem_cons_self _ _
      · exact List.mem_cons_of_mem _ (ih h)

theorem FS.wfb_spec {fs : FS} (h : fs.wfb = true) :
    fs.stat [] = some FSEntry.dir ∧
      ∀ pe ∈ fs.entries, pe.1 = [] ∨ fs.stat pe.1.dropLast = some FSEntry.dir := by
  unfold FS.wfb at h
  rw [Bool.and_eq_true] at h
  refine ⟨of_decide_eq_true h.1, fun pe hmem => ?_⟩
  have h2 := List.all_eq_true.mp h.2 pe hmem
  simp only [Bool.or_eq_true, decide_eq_true_eq] at h2
  exact h2

theorem FS.stat_parent_dir {fs : FS} (h : fs.wfb = true) {p : Path} {e : FSEntry}
    (hp : fs.stat p = some e) (hne : p ≠ []) :
    fs.stat p.dropLast = some FSEntry.dir := by
  rcases (FS.wfb_spec h).2 (p, e) (statList_mem hp) with h2 | h2
  · exact absurd h2 hne
  · exact h2

theorem invoke_fallbackCalls (env : Env) (p : Path) :
    (invoke env p).2.fallbackCalls = 0 := by
  unfold invoke
  repeat first
  | rfl
  | split

theorem invokeOrFallback_debugLines (env : Env) (p : Path) :
    (invokeOrFallback env p).2.debugLines = (invoke env p).2.debugLines := by
  unfold invokeOrFallback
  rcases hi : invoke env p with ⟨r, tr⟩
  cases r <;> rfl

/-! ## Claims -/

/-- C10: on non-Windows builds, `needWinpty` is false for every `Options`
value and `runWinpty` always returns the triple
(`ExitError`, empty string, error saying Not supported); it never
succeeds on these platforms. -/
theorem C10_winpty_stub (args : List String) (opts : Options) :
    needWinpty opts = false ∧
      runWinpty args opts = (ExitError, "", some "Not supported") :=
  ⟨rfl, rfl⟩

/-- C8: for the empty selected-path string the handoff pipeline is never
invoked; the process goes through the normal `exit` path instead. -/
theorem C8_empty_selection_skips_handoff (code : Nat) (opts : Options)
    (err : Option String) :
    mainAfterRun code opts "" err = MainOutcome.exit (exitFn code err) := by
  simp [mainAfterRun]

/-- C9: the autocd handoff is attempted exactly when the selector run
returned `ExitOk`, the autocd option is enabled and the selected item is
non-empty; in every other case the process terminates through `exit` with
the exit code of the selector itself and the handoff subsystem performs no
action. -/
theorem C9_handoff_guard (code : Nat) (opts : Options) (s : String)
    (err : Option String) :
    (mainAfterRun code opts s err = MainOutcome.handoff s ↔
      (code = ExitOk ∧ opts.autoCD = true ∧ s ≠ "")) ∧
    (mainAfterRun code opts s err = MainOutcome.handoff s ∨
      mainAfterRun code opts s err = MainOutcome.exit (exitFn code err)) ∧
    (exitFn code err).exitCode = code := by
  have hexit : (exitFn code err).exitCode = code := by
    unfold exitFn
    split <;> rfl
  unfold mainAfterRun
  split
  next h =>
    simp only [Bool.and_eq_true, beq_iff_eq, bne_iff_ne] at h
    exact ⟨by simp [h.1.1, h.1.2, h.2], Or.inl rfl, hexit⟩
  next h =>
    refine ⟨⟨fun hc => ?_, fun hc => ?_⟩, Or.inr rfl, hexit⟩
    · exact absurd hc (by simp)
    · exact absurd (by simp [hc.1, hc.2.1, bne_iff_ne.mpr hc.2.2]) h

/-- Closed instance of C9: with exit code 1 (no match) and autocd on, the
handoff is not attempted and the process exits with code 1. -/
theorem C9_witness :
    mainAfterRun ExitNoMatch ⟨true⟩ "/tmp" none =
      MainOutcome.exit (exitFn ExitNoMatch none) ∧
    (exitFn ExitNoMatch none).exitCode = ExitNoMatch := by
  have h := C9_handoff_guard ExitNoMatch ⟨true⟩ "/tmp" none
  rcases h.2.1 with hc | hc
  · exact absurd (h.1.mp hc).1 (by decide)
  · exact ⟨hc, h.2.2⟩

/-- C1: the executor hands control away on success — with a native
replacement primitive a successful call replaces the process image and
never returns; without one the host process terminates with exactly the
exit code of the spawned shell child; a value is returned to the caller
only when the final stage actually failed. -/
theorem C1_execute_returns_only_on_failure (env : Env) (art : ScriptArtifact) :
    (env.platform = Platform.execStyle → env.execSucceeds = true →
      execute env art = PipelineResult.replaced) ∧
    (env.platform = Platform.spawnStyle → env.execSucceeds = true →
      execute env art = PipelineResult.exited env.childExitCode) ∧
    (∀ e, execute env art = PipelineResult.failed e →
      env.execSucceeds = false ∨ env.platform = Platform.unsupported) := by
  unfold execute
  cases hp : env.platform <;> cases hs : env.execSucceeds <;> simp [hp, hs]

/-- Closed instance of C1: in the all-success environment the executor
replaces the process, so the call never returns control. -/
theorem C1_witness : execute envOk artA = PipelineResult.replaced :=
  (C1_execute_returns_only_on_failure envOk artA).1 rfl rfl

/-- C2: the guaranteed-exit entry point never returns control to its
caller; whenever any pipeline stage fails it invokes the fallback exactly
once and terminates the process with exit code 0, and on success it
behaves as the plain pipeline (which never called the fallback). -/
theorem C2_invokeOrFallback_never_returns (env : Env) (p : Path) :
    (∀ e, (invokeOrFallback env p).1 ≠ PipelineResult.failed e) ∧
    (∀ e, (invoke env p).1 = PipelineResult.failed e →
      invokeOrFallback env p =
        (PipelineResult.exited 0, { (invoke env p).2 with fallbackCalls := 1 })) ∧
    ((∀ e, (invoke env p).1 ≠ PipelineResult.failed e) →
      invokeOrFallback env p = invoke env p ∧
        (invokeOrFallback env p).2.fallbackCalls = 0) := by
  have h0 := invoke_fallbackCalls env p
  rcases hi : invoke env p with ⟨r, tr⟩
  rw [hi] at h0
  simp only at h0
  unfold invokeOrFallback
  rw [hi]
  cases r with
  | replaced => simp [h0]
  | exited c => simp [h0]
  | failed e =>
      refine ⟨by simp, fun e2 _ => ?_, fun hne => ?_⟩
      · simp [h0]
      · exact absurd rfl (hne e)

/-- Closed instance of C2: on an unresolvable path the fallback runs once
and the process exits with code 0. -/
theorem C2_witness :
    invokeOrFallback envOk ["missing"] =
      (PipelineResult.exited 0, ⟨[], [], [], false, false, 1⟩) := by
  have h := (C2_invokeOrFallback_never_returns envOk ["missing"]).2.1
    HandoffError.invalidTarget (by decide)
  exact h.trans (by decide)

/-- C5: diagnostic output is emitted exactly when the debug toggle is set.
With the toggle unset, no run of the pipeline — whichever stages run or
fail, and through either entry point — writes anything to the diagnostic
stream; with it set, every run writes at least one diagnostic line. -/
theorem C5_debug_iff_toggle (env : Env) (p : Path) :
    (env.debug = false → (invoke env p).2.debugLines = [] ∧
      (invokeOrFallback env p).2.debugLines = []) ∧
    (env.debug = true → (invoke env p).2.debugLines ≠ []) := by
  constructor
  · intro hd
    have h1 : (invoke env p).2.debugLines = [] := by
      unfold invoke
      repeat first
      | simp [debugLine, hd]
      | split
    exact ⟨h1, (invokeOrFallback_debugLines env p).trans h1⟩
  · intro hd
    unfold invoke
    repeat first
    | simp [debugLine, hd]
    | split

/-- Closed instance of C5: the all-success environment has the toggle
unset, and both entry points leave the diagnostic stream empty. -/
theorem C5_witness :
    (invoke envOk ["home"]).2.debugLines = [] ∧
      (invokeOrFallback envOk ["home"]).2.debugLines = [] :=
  (C5_debug_iff_toggle envOk ["home"]).1 rfl

theorem execute_failed_cases {env : Env} {art : ScriptArtifact} {e : HandoffError}
    (h : execute env art = PipelineResult.failed e) :
    (∃ s, e = HandoffError.execFailed s) ∨ e = HandoffError.unsupportedPlatform := by
  unfold execute at h
  repeat' split at h
  all_goals first
  | (injection h with h2; subst h2; simp)
  | injection h

/-- C6: after every failing run no script artifact persists — the temp
directory is empty — and an artifact was ever written during a failing run
only when the failure is ExecFailed or UnsupportedPlatform, in which case
the script never executed and the controller removed the artifact before
returning the error. -/
theorem C6_no_artifact_after_failure (env : Env) (p : Path) (e : HandoffError)
    (tr : Trace) (h : invoke env p = (PipelineResult.failed e, tr)) :
    tr.tempFiles = [] ∧
    (tr.artifactWritten = true →
      tr.scriptExecuted = false ∧
        ((∃ s, e = HandoffError.execFailed s) ∨
          e = HandoffError.unsupportedPlatform)) := by
  unfold invoke at h
  repeat' split at h
  all_goals rw [Prod.mk.injEq] at h
  all_goals obtain ⟨he, htr⟩ := h
  all_goals subst htr
  all_goals first
  | (injection he with he2; subst he2;
      refine ⟨rfl, fun hw => ⟨rfl, ?_⟩⟩;
      apply execute_failed_cases;
      assumption)
  | (injection he with he2; subst he2;
      refine ⟨rfl, fun hw => ?_⟩;
      simp at hw)
  | injection he

/-- Closed instance of C6: a failing replacement primitive yields
ExecFailed with an artifact that was written but never executed, and the
temp directory is empty afterwards. -/
theorem C6_witness :
    (Trace.mk [] [] [] true false 0).tempFiles = [] ∧
    ((Trace.mk [] [] [] true false 0).artifactWritten = true →
      (Trace.mk [] [] [] true false 0).scriptExecuted = false ∧
        ((∃ s, HandoffError.execFailed "exec failed" = HandoffError.execFailed s) ∨
          HandoffError.execFailed "exec failed" = HandoffError.unsupportedPlatform)) :=
  C6_no_artifact_after_failure envExecFail ["home"]
    (HandoffError.execFailed "exec failed") (Trace.mk [] [] [] true false 0)
    (by decide)

/-- C7: every successful handoff writes exactly one line to standard
output, of the form Directory changed to: followed by the resolved
absolute target directory, and it is written by the script before the
shell takes over (the script runs the directory change and confirmation
first, then replaces itself with the shell). -/
theorem C7_single_confirmation_line (env : Env) (p : Path)
    (r : PipelineResult) (tr : Trace) (h : invoke env p = (r, tr))
    (hs : r = PipelineResult.replaced ∨ ∃ c, r = PipelineResult.exited c) :
    ∃ dir, autocdResolve env.fs p = Except.ok dir ∧
      tr.stdoutLines = ["Directory changed to: " ++ pathToString dir] ∧
      tr.scriptExecuted = true := by
  unfold invoke at h
  repeat' split at h
  all_goals rw [Prod.mk.injEq] at h
  all_goals obtain ⟨hr, htr⟩ := h
  all_goals subst htr
  all_goals subst hr
  all_goals first
  | (refine ⟨_, ?_, rfl, rfl⟩; assumption)
  | simp at hs

/-- Closed instance of C7: the successful run on the directory home
prints exactly the line Directory changed to: /home. -/
theorem C7_witness :
    ∃ dir, autocdResolve envOk.fs ["home"] = Except.ok dir ∧
      (Trace.mk [] ["Directory changed to: /home"] [] true true 0).stdoutLines =
        ["Directory changed to: " ++ pathToString dir] ∧
      (Trace.mk [] ["Directory changed to: /home"] [] true true 0).scriptExecuted
        = true :=
  C7_single_confirmation_line envOk ["home"] PipelineResult.replaced
    (Trace.mk [] ["Directory changed to: /home"] [] true true 0)
    (by decide) (Or.inl rfl)

/-- C3 counterexample: the selected path /a/b does not exist on `fsC3`,
yet the pipeline does not fail with InvalidTarget — `handleAutoCD` hands
the parent path /a to the resolver, which resolves successfully, so the
existing directory /a is handed on to the ScriptGenerator. -/
theorem C3_counterexample :
    fsC3.stat ["a", "b"] = none ∧
      composedResolve fsC3 ["a", "b"] = Except.ok ["a"] :=
  ⟨rfl, rfl⟩

/-- C3 (amended): for every rawPath accepted by the pipeline on a
well-formed filesystem, any resolvedDir handed to the ScriptGenerator is
an existing directory, and a rawPath naming a regular file resolves to
its containing directory, never the file itself; but a nonexistent
rawPath does not necessarily fail — `handleAutoCD` hands its parent path
to the resolver, and resolution fails with InvalidTarget exactly when
that parent path does not exist either. -/
theorem C3_amended_resolution (fs : FS) (h : fs.wfb = true) (raw : Path) :
    (∀ d, composedResolve fs raw = Except.ok d → fs.stat d = some FSEntry.dir) ∧
    (fs.stat raw = some FSEntry.file →
      composedResolve fs raw = Except.ok (filepathDir raw)) ∧
    (fs.stat raw = none →
      (composedResolve fs raw = Except.error HandoffError.invalidTarget ↔
        fs.stat (filepathDir raw) = none)) := by
  have hroot := (FS.wfb_spec h).1
  refine ⟨?_, ?_, ?_⟩
  · intro d hd
    cases hstat : fs.stat raw with
    | some e =>
        cases e with
        | dir =>
            simp [composedResolve, handleAutoCDTarget, isDirectory,
              autocdResolve, hstat] at hd
            subst hd
            exact hstat
        | file =>
            have hne : raw ≠ [] := by
              intro h0
              rw [h0, hroot] at hstat
              simp at hstat
            have hpar := FS.stat_parent_dir h hstat hne
            simp [composedResolve, handleAutoCDTarget, isDirectory,
              autocdResolve, filepathDir, hstat, hpar] at hd
            subst hd
            exact hpar
    | none =>
        cases hstat2 : fs.stat raw.dropLast with
        | none =>
            simp [composedResolve, handleAutoCDTarget, isDirectory,
              autocdResolve, filepathDir, hstat, hstat2] at hd
        | some e2 =>
            cases e2 with
            | dir =>
                simp [composedResolve, handleAutoCDTarget, isDirectory,
                  autocdResolve, filepathDir, hstat, hstat2] at hd
                subst hd
                exact hstat2
            | file =>
                have hne2 : raw.dropLast ≠ [] := by
                  intro h0
                  rw [h0, hroot] at hstat2
                  simp at hstat2
                have hpar2 := FS.stat_parent_dir h hstat2 hne2
                simp [composedResolve, handleAutoCDTarget, isDirectory,
                  autocdResolve, filepathDir, hstat, hstat2, hpar2] at hd
                subst hd
                exact hpar2
  · intro hf
    have hne : raw ≠ [] := by
      intro h0
      rw [h0, hroot] at hf
      simp at hf
    have hpar := FS.stat_parent_dir h hf hne
    simp [composedResolve, handleAutoCDTarget, isDirectory, autocdResolve,
      filepathDir, hf, hpar]
  · intro hnone
    cases hstat2 : fs.stat raw.dropLast with
    | none =>
        simp [composedResolve, handleAutoCDTarget, isDirectory, autocdResolve,
          filepathDir, hnone, hstat2]
    | some e2 =>
        cases e2 <;>
          simp [composedResolve, handleAutoCDTarget, isDirectory, autocdResolve,
            filepathDir, hnone, hstat2]

/-- Closed instance of the amended C3: on `fsC3` the nonexistent path
/a/b does not yield InvalidTarget, because its parent /a exists. -/
theorem C3_witness :
    composedResolve fsC3 ["a", "b"] = Except.error HandoffError.invalidTarget ↔
      fsC3.stat (filepathDir ["a", "b"]) = none :=
  (C3_amended_resolution fsC3 (by decide) ["a", "b"]).2.2 (by decide)

/-- C4: on a well-formed filesystem, resolving an existing directory
yields that directory itself, and resolving an existing regular file
yields its parent directory, with no other resolution attempted. -/
theorem C4_resolve_file_and_dir (fs : FS) (h : fs.wfb = true) (raw : Path) :
    (fs.stat raw = some FSEntry.dir → composedResolve fs raw = Except.ok raw) ∧
    (fs.stat raw = some FSEntry.file →
      composedResolve fs raw = Except.ok (filepathDir raw)) := by
  constructor
  · intro hd
    simp [composedResolve, handleAutoCDTarget, isDirectory, autocdResolve, hd]
  · intro hf
    have hne : raw ≠ [] := by
      intro h0
      rw [h0, (FS.wfb_spec h).1] at hf
      simp at hf
    have hpar := FS.stat_parent_dir h hf hne
    simp [composedResolve, handleAutoCDTarget, isDirectory, autocdResolve,
      filepathDir, hf, hpar]

/-- Closed instance of C4: on `fsA`, the existing file /home/notes.md
resolves to its containing directory /home, and the existing directory
/home resolves to itself. -/
theorem C4_witness :
    composedResolve fsA ["home", "notes.md"] =
      Except.ok (filepathDir ["home", "notes.md"]) ∧
    composedResolve fsA ["home"] = Except.ok ["home"] :=
  ⟨(C4_resolve_file_and_dir fsA (by decide) ["home", "notes.md"]).2 (by decide),
    (C4_resolve_file_and_dir fsA (by decide) ["home"]).1 (by decide)⟩

end FzfAutocd
